import Mathlib

/-!
Verification development for the dual-store telemetry ingestion engine
(NestJS/TypeORM service over PostgreSQL).

Shallow embedding conventions:
* Timestamps are modelled in minutes as `Int`; the SQL `DATE(ts)` cast is
  floor-division by 1440 (minutes per calendar day).  The analytics window
  `now - hours * 60 * 60 * 1000` (milliseconds) is `now - hours * 60` minutes.
* Numeric telemetry values are modelled as `Rat` (exact arithmetic; the
  JavaScript `Math.round(x * 10000) / 10000` post-processing is embedded as
  `round4` below, with `Math.round` = floor of `x + 1/2`).
* SQL result rows are Lean structures; tables are Lean lists; `findOne` /
  `find?` returns the first matching row.
* The human-readable warning string assembled by the analytics service is
  abstracted to the ordered list of its causes (`WarnCause`), since only its
  information content matters here, not its formatting.
* Fallible storage steps are modelled with explicit failure flags or
  `Except`: each SQL statement is atomic, and a statement that is never
  issued leaves the state unchanged.
-/

namespace IngestionEngine

/-- Timestamps in minutes since the epoch. -/
abbrev Time := Int

/-- The SQL `DATE(ts)` cast: the calendar day of a timestamp. -/
def dateOf (t : Time) : Int := Int.fdiv t 1440

/-- One row of `meter_telemetry_history` (Cold Store). -/
structure MeterHist where
  meterId : String
  kwhConsumedAc : ℚ
  voltage : ℚ
  timestamp : Time
  vehicleId : Option String
  deriving DecidableEq, Repr

/-- One row of `vehicle_telemetry_history` (Cold Store). -/
structure VehicleHist where
  vehicleId : String
  soc : ℚ
  kwhDeliveredDc : ℚ
  batteryTemp : ℚ
  timestamp : Time
  meterId : Option String
  deriving DecidableEq, Repr

/-- One row of `meter_current_status` (Hot Store). -/
structure MeterStatusRow where
  meterId : String
  kwhConsumedAc : ℚ
  voltage : ℚ
  lastReadingAt : Time
  dailyKwhConsumedAc : ℚ
  vehicleId : Option String
  status : String
  deriving DecidableEq, Repr

/-- One row of `vehicle_current_status` (Hot Store). -/
structure VehicleStatusRow where
  vehicleId : String
  soc : ℚ
  kwhDeliveredDc : ℚ
  batteryTemp : ℚ
  lastReadingAt : Time
  dailyKwhDeliveredDc : ℚ
  meterId : Option String
  chargingState : String
  batteryTempWarning : Bool
  deriving DecidableEq, Repr

/-- One row of `device_mapping` (Correlation Store). -/
structure DeviceMapping where
  meterId : String
  vehicleId : String
  isActive : Bool
  deriving DecidableEq, Repr

/-- The persistent database state: two history tables, two status tables,
one correlation table. -/
structure DbState where
  meterHistory : List MeterHist
  vehicleHistory : List VehicleHist
  meterStatus : List MeterStatusRow
  vehicleStatus : List VehicleStatusRow
  mappings : List DeviceMapping
  deriving DecidableEq, Repr

/-- The empty database. -/
def emptyDb : DbState := ⟨[], [], [], [], []⟩

/-- Validated meter payload (`MeterTelemetryDto`). -/
structure MeterTelemetryDto where
  meterId : String
  kwhConsumedAc : ℚ
  voltage : ℚ
  timestamp : Time
  deriving DecidableEq, Repr

/-- Validated vehicle payload (`VehicleTelemetryDto`). -/
structure VehicleTelemetryDto where
  vehicleId : String
  soc : ℚ
  kwhDeliveredDc : ℚ
  batteryTemp : ℚ
  timestamp : Time
  deriving DecidableEq, Repr

/-- `deviceMappingRepo.findOne({ where: { meterId, isActive: true } })`,
projected to the vehicle id. -/
def activeVehicleFor (st : DbState) (meterId : String) : Option String :=
  (st.mappings.find? (fun m => m.meterId == meterId && m.isActive)).map (·.vehicleId)

/-- `deviceMappingRepo.findOne({ where: { vehicleId, isActive: true } })`,
projected to the meter id. -/
def activeMeterFor (st : DbState) (vehicleId : String) : Option String :=
  (st.mappings.find? (fun m => m.vehicleId == vehicleId && m.isActive)).map (·.meterId)

/-- Insertion step of sorting meter-history rows by `timestamp DESC`
(the subquery's `ORDER BY timestamp DESC`; SQL leaves ties unspecified,
the model fixes one order). -/
def insertByTimestampDesc (r : MeterHist) : List MeterHist → List MeterHist
  | [] => [r]
  | x :: xs =>
    if x.timestamp < r.timestamp then r :: x :: xs else x :: insertByTimestampDesc r xs

/-- Meter-history rows sorted by `timestamp DESC`. -/
def sortByTimestampDesc (l : List MeterHist) : List MeterHist :=
  l.foldr insertByTimestampDesc []

/-- The correlated subquery inside `upsertMeterStatus`:
`SELECT "kwhConsumedAc" FROM meter_telemetry_history WHERE "meterId" = $1
ORDER BY timestamp DESC LIMIT 1 OFFSET 1`, i.e. the second-latest reading
of this meter in the history table at the time the upsert runs. -/
def prevMeterKwh (hist : List MeterHist) (meterId : String) : Option ℚ :=
  (((sortByTimestampDesc (hist.filter (fun h => h.meterId == meterId))).drop 1).head?).map
    (·.kwhConsumedAc)

/-- The `DO UPDATE SET` branch of the meter upsert, applied to the existing
row `old`.  `hist` is the meter-history table the subquery reads. -/
def updateMeterRow (hist : List MeterHist) (dto : MeterTelemetryDto) (ts : Time)
    (vehicleId : Option String) (old : MeterStatusRow) : MeterStatusRow :=
  { old with
    kwhConsumedAc := dto.kwhConsumedAc
    voltage := dto.voltage
    lastReadingAt := ts
    dailyKwhConsumedAc := old.dailyKwhConsumedAc +
      (if dateOf ts > dateOf old.lastReadingAt then dto.kwhConsumedAc
       else dto.kwhConsumedAc - ((prevMeterKwh hist dto.meterId).getD dto.kwhConsumedAc))
    vehicleId := match vehicleId with
      | some v => some v
      | none => old.vehicleId
    status := "online" }

/-- The `INSERT ... VALUES` branch of the meter upsert (no existing row):
`dailyKwhConsumedAc` is seeded from this reading's value (`$2`). -/
def insertMeterRow (dto : MeterTelemetryDto) (ts : Time)
    (vehicleId : Option String) : MeterStatusRow :=
  { meterId := dto.meterId
    kwhConsumedAc := dto.kwhConsumedAc
    voltage := dto.voltage
    lastReadingAt := ts
    dailyKwhConsumedAc := dto.kwhConsumedAc
    vehicleId := vehicleId
    status := "online" }

/-- `INSERT ... ON CONFLICT ("meterId") DO UPDATE`, as a transformation of
the `meter_current_status` row list. -/
def upsertMeterStatusRows (hist : List MeterHist) (dto : MeterTelemetryDto) (ts : Time)
    (vehicleId : Option String) : List MeterStatusRow → List MeterStatusRow
  | [] => [insertMeterRow dto ts vehicleId]
  | r :: rs =>
    if r.meterId == dto.meterId then updateMeterRow hist dto ts vehicleId r :: rs
    else r :: upsertMeterStatusRows hist dto ts vehicleId rs

/-- `upsertMeterStatus(dto, timestamp, vehicleId)`: one atomic SQL statement. -/
def upsertMeterStatus (st : DbState) (dto : MeterTelemetryDto) (ts : Time)
    (vehicleId : Option String) : DbState :=
  { st with meterStatus := upsertMeterStatusRows st.meterHistory dto ts vehicleId st.meterStatus }

/-- Cold-store append of `ingestMeterTelemetry`:
`meterHistoryRepo.insert(historyEntry)` with the resolved peer id. -/
def meterColdAppend (st : DbState) (dto : MeterTelemetryDto)
    (vehicleId : Option String) : DbState :=
  { st with
    meterHistory := st.meterHistory ++
      [{ meterId := dto.meterId
         kwhConsumedAc := dto.kwhConsumedAc
         voltage := dto.voltage
         timestamp := dto.timestamp
         vehicleId := vehicleId }] }

/-- `ingestMeterTelemetry`: resolve the active mapping, append to the cold
store, then upsert the hot store — two separate statements, in this order,
with no wrapping transaction. -/
def ingestMeterTelemetry (st : DbState) (dto : MeterTelemetryDto) : DbState :=
  let vehicleId := activeVehicleFor st dto.meterId
  upsertMeterStatus (meterColdAppend st dto vehicleId) dto dto.timestamp vehicleId

/-- Battery temperature warning threshold (Celsius). -/
def batteryTempWarningThreshold : ℚ := 45

/-- The `DO UPDATE SET` branch of the vehicle upsert, applied to the
existing row `old`.  The same-day increment is clamped:
`GREATEST(0, $3 - COALESCE(existing."kwhDeliveredDc", 0))`
(the column is NOT NULL, so the COALESCE is the row value itself). -/
def updateVehicleRow (dto : VehicleTelemetryDto) (ts : Time)
    (meterId : Option String) (old : VehicleStatusRow) : VehicleStatusRow :=
  { old with
    soc := dto.soc
    kwhDeliveredDc := dto.kwhDeliveredDc
    batteryTemp := dto.batteryTemp
    lastReadingAt := ts
    dailyKwhDeliveredDc := old.dailyKwhDeliveredDc +
      (if dateOf ts > dateOf old.lastReadingAt then dto.kwhDeliveredDc
       else max 0 (dto.kwhDeliveredDc - old.kwhDeliveredDc))
    meterId := match meterId with
      | some m => some m
      | none => old.meterId
    chargingState := if dto.kwhDeliveredDc > 0 then "charging" else "idle"
    batteryTempWarning := dto.batteryTemp ≥ batteryTempWarningThreshold }

/-- The `INSERT ... VALUES` branch of the vehicle upsert (no existing row):
`dailyKwhDeliveredDc` is seeded from this reading's value (`$3`). -/
def insertVehicleRow (dto : VehicleTelemetryDto) (ts : Time)
    (meterId : Option String) : VehicleStatusRow :=
  { vehicleId := dto.vehicleId
    soc := dto.soc
    kwhDeliveredDc := dto.kwhDeliveredDc
    batteryTemp := dto.batteryTemp
    lastReadingAt := ts
    dailyKwhDeliveredDc := dto.kwhDeliveredDc
    meterId := meterId
    chargingState := if dto.kwhDeliveredDc > 0 then "charging" else "idle"
    batteryTempWarning := dto.batteryTemp ≥ batteryTempWarningThreshold }

/-- `INSERT ... ON CONFLICT ("vehicleId") DO UPDATE`, as a transformation of
the `vehicle_current_status` row list. -/
def upsertVehicleStatusRows (dto : VehicleTelemetryDto) (ts : Time)
    (meterId : Option String) : List VehicleStatusRow → List VehicleStatusRow
  | [] => [insertVehicleRow dto ts meterId]
  | r :: rs =>
    if r.vehicleId == dto.vehicleId then updateVehicleRow dto ts meterId r :: rs
    else r :: upsertVehicleStatusRows dto ts meterId rs

/-- `upsertVehicleStatus(dto, timestamp, meterId)`: one atomic SQL statement. -/
def upsertVehicleStatus (st : DbState) (dto : VehicleTelemetryDto) (ts : Time)
    (meterId : Option String) : DbState :=
  { st with vehicleStatus := upsertVehicleStatusRows dto ts meterId st.vehicleStatus }

/-- Cold-store append of `ingestVehicleTelemetry`. -/
def vehicleColdAppend (st : DbState) (dto : VehicleTelemetryDto)
    (meterId : Option String) : DbState :=
  { st with
    vehicleHistory := st.vehicleHistory ++
      [{ vehicleId := dto.vehicleId
         soc := dto.soc
         kwhDeliveredDc := dto.kwhDeliveredDc
         batteryTemp := dto.batteryTemp
         timestamp := dto.timestamp
         meterId := meterId }] }

/-- `ingestVehicleTelemetry`: resolve the active mapping, append to the cold
store, then upsert the hot store — two separate statements, in this order,
with no wrapping transaction. -/
def ingestVehicleTelemetry (st : DbState) (dto : VehicleTelemetryDto) : DbState :=
  let meterId := activeMeterFor st dto.vehicleId
  upsertVehicleStatus (vehicleColdAppend st dto meterId) dto dto.timestamp meterId

/-- `deactivateMapping(meterId, vehicleId)`: sets `isActive = false` on the
matching mapping rows and touches nothing else. -/
def deactivateMapping (st : DbState) (meterId vehicleId : String) : DbState :=
  { st with
    mappings := st.mappings.map (fun m =>
      if m.meterId == meterId && m.vehicleId == vehicleId then { m with isActive := false }
      else m) }

/-- Daily cumulative of a meter's status row, when present. -/
def meterDaily? (st : DbState) (meterId : String) : Option ℚ :=
  (st.meterStatus.find? (fun r => r.meterId == meterId)).map (·.dailyKwhConsumedAc)

/-- Daily cumulative of a vehicle's status row, when present. -/
def vehicleDaily? (st : DbState) (vehicleId : String) : Option ℚ :=
  (st.vehicleStatus.find? (fun r => r.vehicleId == vehicleId)).map (·.dailyKwhDeliveredDc)

/-! Fault-injected single-reading ingestion.  In the service the cold append
and the hot upsert are two separate awaited statements with no transaction
around them, so each statement that completed before a failure stays
persisted; a failing statement leaves its own table unchanged and aborts the
rest of the method.  The two Boolean flags say which statement fails. -/

/-- `ingestMeterTelemetry` with storage-failure injection: `insertFails`
makes the cold-store insert fail, `upsertFails` makes the hot-store upsert
fail.  Returns the visible database state plus whether the call succeeded. -/
def ingestMeterWithFaults (insertFails upsertFails : Bool) (st : DbState)
    (dto : MeterTelemetryDto) : DbState × Bool :=
  let vehicleId := activeVehicleFor st dto.meterId
  if insertFails then (st, false)
  else
    let st1 := meterColdAppend st dto vehicleId
    if upsertFails then (st1, false)
    else (upsertMeterStatus st1 dto dto.timestamp vehicleId, true)

/-- `ingestVehicleTelemetry` with the same storage-failure injection. -/
def ingestVehicleWithFaults (insertFails upsertFails : Bool) (st : DbState)
    (dto : VehicleTelemetryDto) : DbState × Bool :=
  let meterId := activeMeterFor st dto.vehicleId
  if insertFails then (st, false)
  else
    let st1 := vehicleColdAppend st dto meterId
    if upsertFails then (st1, false)
    else (upsertVehicleStatus st1 dto dto.timestamp meterId, true)

/-! Batch ingestion. -/

/-- Stream discriminator of `PolymorphicTelemetryDto`. -/
inductive TelemetryType
  | meter
  | vehicle
  deriving DecidableEq, Repr

/-- `PolymorphicTelemetryDto`: the unified payload with conditionally
required fields. -/
structure PolymorphicTelemetryDto where
  type : TelemetryType
  meterId : Option String
  kwhConsumedAc : Option ℚ
  voltage : Option ℚ
  vehicleId : Option String
  soc : Option ℚ
  kwhDeliveredDc : Option ℚ
  batteryTemp : Option ℚ
  timestamp : Time
  deriving DecidableEq, Repr

/-- `ingestPolymorphic`: dispatch on `dto.type`.  The handler dereferences
the stream's required fields with non-null assertions; a missing required
field reaches the NOT NULL column constraint and the statement throws,
modelled as `Except.error` before any write. -/
def ingestPolymorphic (st : DbState) (dto : PolymorphicTelemetryDto) :
    Except String DbState :=
  match dto.type with
  | .meter =>
    match dto.meterId, dto.kwhConsumedAc, dto.voltage with
    | some mid, some kwh, some v =>
      .ok (ingestMeterTelemetry st
        { meterId := mid, kwhConsumedAc := kwh, voltage := v, timestamp := dto.timestamp })
    | _, _, _ => .error "null value in required column"
  | .vehicle =>
    match dto.vehicleId, dto.soc, dto.kwhDeliveredDc, dto.batteryTemp with
    | some vid, some soc, some kwh, some temp =>
      .ok (ingestVehicleTelemetry st
        { vehicleId := vid, soc := soc, kwhDeliveredDc := kwh, batteryTemp := temp,
          timestamp := dto.timestamp })
    | _, _, _, _ => .error "null value in required column"

/-- Result record of `ingestBatch`. -/
structure BatchResult where
  success : Nat
  failed : Nat
  errors : List String
  deriving DecidableEq, Repr

/-- Device label used in a batch error message:
`${reading.type}:${reading.meterId || reading.vehicleId}`. -/
def readingLabel (r : PolymorphicTelemetryDto) : String :=
  (match r.type with
   | .meter => "meter"
   | .vehicle => "vehicle") ++ ":" ++
  ((match r.meterId with
    | some m => some m
    | none => r.vehicleId).getD "undefined")

/-- The `for (const reading of readings)` loop of `ingestBatch`: each reading
is attempted against the live database state; a per-record failure is caught,
counted and recorded, and the loop moves on.  Every write inside the loop
goes through the repositories / `dataSource.query`, i.e. the default
connection — not through the `queryRunner` that holds the transaction. -/
def ingestBatchLoop (st : DbState) (readings : List PolymorphicTelemetryDto)
    (acc : BatchResult) : DbState × BatchResult :=
  match readings with
  | [] => (st, acc)
  | r :: rs =>
    match ingestPolymorphic st r with
    | .ok st' => ingestBatchLoop st' rs { acc with success := acc.success + 1 }
    | .error e =>
      ingestBatchLoop st rs
        { acc with
          failed := acc.failed + 1
          errors := acc.errors ++ [readingLabel r ++ ": " ++ e] }

/-- `ingestBatch`: runs the loop, then commits the `queryRunner` transaction.
The transaction's own write set is empty (no write of the loop was issued
through the `queryRunner`), so `rollbackTransaction` on a commit-time
infrastructure failure — modelled by `commitFails` — discards nothing: the
per-record writes remain visible while the error is rethrown. -/
def ingestBatch (commitFails : Bool) (st : DbState)
    (readings : List PolymorphicTelemetryDto) : DbState × Except String BatchResult :=
  let out := ingestBatchLoop st readings ⟨0, 0, []⟩
  if commitFails then (out.1, .error "storage failure at commit")
  else (out.1, .ok out.2)

/-! Analytics engine (`AnalyticsService`). -/

/-- JavaScript `Math.round`: rounds to the nearest integer, ties toward
positive infinity. -/
def jsRound (q : ℚ) : ℤ := ⌊q + 1 / 2⌋

/-- `Math.round(x * 10000) / 10000`. -/
def round4 (q : ℚ) : ℚ := (jsRound (q * 10000) : ℚ) / 10000

/-- `Math.round(x * 100) / 100`. -/
def round2 (q : ℚ) : ℚ := (jsRound (q * 100) : ℚ) / 100

/-- Default `EFFICIENCY_WARNING_THRESHOLD`. -/
def efficiencyWarningThreshold : ℚ := 85 / 100

/-- Default `EFFICIENCY_CRITICAL_THRESHOLD`. -/
def efficiencyCriticalThreshold : ℚ := 75 / 100

/-- Efficiency band reported by the analytics service. -/
inductive EffStatus
  | excellent
  | good
  | warning
  | critical
  deriving DecidableEq, Repr

/-- Causes of the warning string, in the order the service appends them
(the formatted string is a function of this list). -/
inductive WarnCause
  | efficiencyBelowWarning
  | efficiencyBelowCritical
  | criticalBatteryTemp (t : ℚ)
  | elevatedBatteryTemp (t : ℚ)
  deriving DecidableEq, Repr

/-- `PerformanceAnalyticsResponseDto`: every field of the response the
service returns.  There is no field marking the efficiency ratio as
estimated versus measured. -/
structure PerformanceAnalyticsResponse where
  vehicleId : String
  periodStart : Time
  periodEnd : Time
  totalKwhConsumedAc : ℚ
  totalKwhDeliveredDc : ℚ
  efficiencyRatio : ℚ
  efficiencyStatus : EffStatus
  avgBatteryTemp : ℚ
  maxBatteryTemp : ℚ
  minBatteryTemp : ℚ
  warning : List WarnCause
  readingsCount : Nat
  meterId : Option String
  deriving DecidableEq, Repr

/-- Vehicle-history rows of `vehicleId` with `timestamp` in the closed
window `[ps, pe]`. -/
def vehicleRowsIn (st : DbState) (vehicleId : String) (ps pe : Time) : List VehicleHist :=
  st.vehicleHistory.filter (fun h =>
    h.vehicleId == vehicleId && decide (ps ≤ h.timestamp) && decide (h.timestamp ≤ pe))

/-- Meter-history rows in the closed window `[ps, pe]`. -/
def meterRowsIn (st : DbState) (ps pe : Time) : List MeterHist :=
  st.meterHistory.filter (fun h => decide (ps ≤ h.timestamp) && decide (h.timestamp ≤ pe))

/-- `SUM("kwhConsumedAc")` over the window for a given meter id. -/
def meterConsumedByMeterId (st : DbState) (meterId : String) (ps pe : Time) : ℚ :=
  (((meterRowsIn st ps pe).filter (fun h => h.meterId == meterId)).map (·.kwhConsumedAc)).sum

/-- `SUM("kwhConsumedAc")` over the window for rows peer-tagged with a given
vehicle id (the fallback query). -/
def meterConsumedByVehicleTag (st : DbState) (vehicleId : String) (ps pe : Time) : ℚ :=
  (((meterRowsIn st ps pe).filter (fun h => h.vehicleId == some vehicleId)).map
    (·.kwhConsumedAc)).sum

/-- Meter id used by `getPerformance`: the explicit query argument if given,
else the active mapping's meter. -/
def resolvedMeterId (st : DbState) (vehicleId : String) (meterIdArg : Option String) :
    Option String :=
  match meterIdArg with
  | some m => some m
  | none => activeMeterFor st vehicleId

/-- The consumed-energy sum `getPerformance` computes: by resolved meter id
when one exists, otherwise by the peer tag on the meter-history rows. -/
def consumedSumOf (st : DbState) (vehicleId : String) (meterIdArg : Option String)
    (ps pe : Time) : ℚ :=
  match resolvedMeterId st vehicleId meterIdArg with
  | some m => meterConsumedByMeterId st m ps pe
  | none => meterConsumedByVehicleTag st vehicleId ps pe

/-- `COALESCE(MAX(xs), 0)`. -/
def qMax0 : List ℚ → ℚ
  | [] => 0
  | x :: xs => xs.foldl max x

/-- `COALESCE(MIN(xs), 0)`. -/
def qMin0 : List ℚ → ℚ
  | [] => 0
  | x :: xs => xs.foldl min x

/-- Efficiency band from a ratio, with the service's threshold order. -/
def effStatusOf (ratio : ℚ) : EffStatus :=
  if ratio ≥ 92 / 100 then .excellent
  else if ratio ≥ efficiencyWarningThreshold then .good
  else if ratio ≥ efficiencyCriticalThreshold then .warning
  else .critical

/-- Window start used by the analytics queries:
`new Date(periodEnd.getTime() - hours * 60 * 60 * 1000)`, in minutes. -/
def periodStartOf (now : Time) (hours : Nat) : Time := now - (hours * 60 : Nat)

/-- `getPerformance(vehicleId, hours, meterId?)`.  The service takes
`periodEnd = now` and `periodStart = now - hours` (in minutes here); it
fails with `NotFoundException` when the vehicle window holds zero readings,
before the meter-side query even runs. -/
def getPerformance (st : DbState) (vehicleId : String) (now : Time) (hours : Nat)
    (meterIdArg : Option String) : Except String PerformanceAnalyticsResponse :=
  let periodEnd := now
  let periodStart := periodStartOf now hours
  let meterId := resolvedMeterId st vehicleId meterIdArg
  let vrows := vehicleRowsIn st vehicleId periodStart periodEnd
  if vrows.length = 0 then
    .error ("No telemetry data found for vehicle " ++ vehicleId)
  else
    let totalDc := (vrows.map (·.kwhDeliveredDc)).sum
    let avgTemp := (vrows.map (·.batteryTemp)).sum / (vrows.length : ℚ)
    let maxTemp := qMax0 (vrows.map (·.batteryTemp))
    let minTemp := qMin0 (vrows.map (·.batteryTemp))
    let consumed0 := consumedSumOf st vehicleId meterIdArg periodStart periodEnd
    let totalAc := if consumed0 > 0 then consumed0
      else if totalDc > 0 then totalDc / (9 / 10) else consumed0
    let ratio := if consumed0 > 0 then totalDc / consumed0
      else if totalDc > 0 then (9 / 10 : ℚ) else 0
    let effStatus := effStatusOf ratio
    let warnEff : List WarnCause :=
      match effStatus with
      | .warning => [.efficiencyBelowWarning]
      | .critical => [.efficiencyBelowCritical]
      | _ => []
    let warnAll := if maxTemp > 55 then warnEff ++ [.criticalBatteryTemp maxTemp]
      else if maxTemp > 45 then warnEff ++ [.elevatedBatteryTemp maxTemp]
      else warnEff
    .ok
      { vehicleId := vehicleId
        periodStart := periodStart
        periodEnd := periodEnd
        totalKwhConsumedAc := round4 totalAc
        totalKwhDeliveredDc := round4 totalDc
        efficiencyRatio := round4 ratio
        efficiencyStatus := effStatus
        avgBatteryTemp := round2 avgTemp
        maxBatteryTemp := round2 maxTemp
        minBatteryTemp := round2 minTemp
        warning := warnAll
        readingsCount := vrows.length
        meterId := meterId }

/-- `FleetEfficiencyDto`. -/
structure FleetEfficiencyResult where
  totalVehicles : Nat
  avgEfficiencyRatio : ℚ
  vehiclesWithWarnings : Nat
  vehiclesCritical : Nat
  totalKwhConsumedAc : ℚ
  totalKwhDeliveredDc : ℚ
  totalEnergyLoss : ℚ
  deriving DecidableEq, Repr

/-- Total delivered energy over the window, across all vehicles. -/
def fleetTotalDc (st : DbState) (ps pe : Time) : ℚ :=
  ((st.vehicleHistory.filter (fun h =>
    decide (ps ≤ h.timestamp) && decide (h.timestamp ≤ pe))).map (·.kwhDeliveredDc)).sum

/-- Total consumed energy over the window, across all meters. -/
def fleetTotalAc (st : DbState) (ps pe : Time) : ℚ :=
  ((meterRowsIn st ps pe).map (·.kwhConsumedAc)).sum

/-- The per-vehicle efficiency breakdown CTE of `getFleetEfficiency`:
group the window's vehicle rows by vehicle id, pair each group's delivered
sum with the consumed sum of peer-tagged meter rows, keep only vehicles
with positive consumed sum, and take the ratio. -/
def fleetRatios (st : DbState) (ps pe : Time) : List ℚ :=
  let vrows := st.vehicleHistory.filter (fun h =>
    decide (ps ≤ h.timestamp) && decide (h.timestamp ≤ pe))
  let perVehicle := ((vrows.map (·.vehicleId)).dedup).map (fun v =>
    (((vrows.filter (fun h => h.vehicleId == v)).map (·.kwhDeliveredDc)).sum,
     meterConsumedByVehicleTag st v ps pe))
  (perVehicle.filter (fun p => p.2 > 0)).map (fun p => p.1 / p.2)

/-- `getFleetEfficiency(hours)` over an explicit window `[ps, pe]`:
fleet-wide ratio from the aggregate sums, plus warning/critical counts from
the per-vehicle breakdown. -/
def getFleetEfficiency (st : DbState) (ps pe : Time) : FleetEfficiencyResult :=
  let vrows := st.vehicleHistory.filter (fun h =>
    decide (ps ≤ h.timestamp) && decide (h.timestamp ≤ pe))
  let totalDc := fleetTotalDc st ps pe
  let totalAc := fleetTotalAc st ps pe
  let ratios := fleetRatios st ps pe
  let avg := if totalAc > 0 then totalDc / totalAc else 0
  { totalVehicles := ((vrows.map (·.vehicleId)).dedup).length
    avgEfficiencyRatio := round4 avg
    vehiclesWithWarnings := (ratios.filter (fun r =>
      decide (r < efficiencyWarningThreshold) && decide (r ≥ efficiencyCriticalThreshold))).length
    vehiclesCritical := (ratios.filter (fun r => decide (r < efficiencyCriticalThreshold))).length
    totalKwhConsumedAc := round2 totalAc
    totalKwhDeliveredDc := round2 totalDc
    totalEnergyLoss := round2 (totalAc - totalDc) }

/-! Concrete scenarios referenced by the theorems below.  Timestamps:
600 and 660 are on calendar day 0 (10:00 and 11:00), 720 is 12:00 of
day 0, 2040 is 10:00 of calendar day 1. -/

/-- Meter reading `{meterId:"M1", kwhConsumedAc:10, voltage:240, ts:T}`. -/
def mDtoA : MeterTelemetryDto := ⟨"M1", 10, 240, 600⟩

/-- Meter reading `{meterId:"M1", kwhConsumedAc:16, voltage:241, ts:T+1h}`. -/
def mDtoB : MeterTelemetryDto := ⟨"M1", 16, 241, 660⟩

/-- Meter reading for M1 with value 5 on the next calendar day. -/
def mDtoNextDay : MeterTelemetryDto := ⟨"M1", 5, 240, 2040⟩

/-- Database after ingesting `mDtoA` then `mDtoB` from empty (same day). -/
def c4State : DbState := ingestMeterTelemetry (ingestMeterTelemetry emptyDb mDtoA) mDtoB

/-- Database after ingesting `mDtoA` (day 0) then `mDtoNextDay` (day 1). -/
def c1State : DbState := ingestMeterTelemetry (ingestMeterTelemetry emptyDb mDtoA) mDtoNextDay

/-- Vehicle reading for V1 with 10 kWh delivered, day 0. -/
def vDtoA : VehicleTelemetryDto := ⟨"V1", 50, 10, 30, 600⟩

/-- Vehicle reading for V1 with 5 kWh delivered, on the next calendar day. -/
def vDtoNextDay : VehicleTelemetryDto := ⟨"V1", 60, 5, 30, 2040⟩

/-- Database after ingesting `vDtoA` (day 0) then `vDtoNextDay` (day 1). -/
def c1VehState : DbState :=
  ingestVehicleTelemetry (ingestVehicleTelemetry emptyDb vDtoA) vDtoNextDay

/-- Base state for the concurrency scenario: one prior reading of 5 kWh. -/
def c8Base : DbState := ingestMeterTelemetry emptyDb ⟨"M1", 5, 240, 600⟩

/-- First concurrent meter reading: 10 kWh at 11:00. -/
def c8DtoA : MeterTelemetryDto := ⟨"M1", 10, 240, 660⟩

/-- Second concurrent meter reading: 11 kWh at 12:00. -/
def c8DtoB : MeterTelemetryDto := ⟨"M1", 11, 240, 720⟩

/-- The interleaving A.insert, B.insert, A.upsert, B.upsert of the two
concurrent meter ingests (each step is one atomic SQL statement; the
storage layer serializes the statements in this order).  No mapping is
active, so both ingests resolve a null peer. -/
def c8Interleaved : DbState :=
  upsertMeterStatus
    (upsertMeterStatus
      (meterColdAppend (meterColdAppend c8Base c8DtoA none) c8DtoB none)
      c8DtoA c8DtoA.timestamp none)
    c8DtoB c8DtoB.timestamp none

/-- Valid batch reading: meter M1, 10 kWh. -/
def batchOk1 : PolymorphicTelemetryDto :=
  ⟨.meter, some "M1", some 10, some 240, none, none, none, none, 600⟩

/-- Invalid batch reading: declared meter type but `kwhConsumedAc` missing. -/
def batchBad : PolymorphicTelemetryDto :=
  ⟨.meter, some "M2", none, some 240, none, none, none, none, 610⟩

/-- Valid batch reading: meter M1, 16 kWh. -/
def batchOk2 : PolymorphicTelemetryDto :=
  ⟨.meter, some "M1", some 16, some 241, none, none, none, none, 660⟩

/-- The batch of the three readings above, run with a commit-time
infrastructure failure. -/
def c3Run : DbState × Except String BatchResult :=
  ingestBatch true emptyDb [batchOk1, batchBad, batchOk2]

/-- Vehicle-history row: V1 delivered 9 kWh at minute 100, temperature 30. -/
def c5VehRow : VehicleHist := ⟨"V1", 50, 9, 30, 100, none⟩

/-- Meter-history row: M1 consumed 10 kWh at minute 100, tagged to V1. -/
def c5MetRow : MeterHist := ⟨"M1", 10, 240, 100, some "V1"⟩

/-- Store with vehicle data but no meter data: the estimated-ratio path. -/
def c5EstState : DbState := ⟨[], [c5VehRow], [], [], []⟩

/-- Store with the same vehicle data and a measured consumed sum of 10,
so the measured ratio is exactly 9/10. -/
def c5MeasState : DbState := ⟨[c5MetRow], [c5VehRow], [], [], []⟩

/-- Store with a meter-history row inside the window but no vehicle row in
it (V1's only reading is at minute 5000, outside `[0, 1440]`). -/
def c6State : DbState :=
  ⟨[⟨"M1", 10, 240, 100, none⟩], [⟨"V1", 50, 9, 30, 5000, none⟩], [], [], []⟩

/-- Fleet store: V1 delivered 8 against 10 consumed (ratio 0.80), V2
delivered 3 against 5 consumed (ratio 0.60), all inside `[0, 1440]`. -/
def c7State : DbState :=
  ⟨[⟨"MA", 10, 240, 100, some "V1"⟩, ⟨"MB", 5, 240, 200, some "V2"⟩],
   [⟨"V1", 50, 8, 30, 100, none⟩, ⟨"V2", 50, 3, 30, 200, none⟩], [], [], []⟩

/-- Existing vehicle status row: latest 5 kWh, daily 5, last reading at
minute 600. -/
def c9Row : VehicleStatusRow := ⟨"V1", 50, 5, 30, 600, 5, none, "idle", false⟩

/-- Store holding only `c9Row`. -/
def c9State : DbState := ⟨[], [], [], [c9Row], []⟩

/-- Same-day vehicle reading that reports a LOWER absolute value (4 < 5). -/
def c9Dto : VehicleTelemetryDto := ⟨"V1", 60, 4, 30, 660⟩

/-- Meter status row whose correlated peer is already set to V1. -/
def c10MeterRow : MeterStatusRow := ⟨"M1", 10, 240, 600, 10, some "V1", "online"⟩

/-- Store holding `c10MeterRow` and no mappings, so an ingest for M1
resolves a null peer and the COALESCE keeps the stored V1. -/
def c10State : DbState := ⟨[], [], [c10MeterRow], [], []⟩

/-- The response both `c5EstState` and `c5MeasState` produce: ratio 9/10
marked `good`, consumed 10, delivered 9 — with nothing recording whether
the consumed sum was measured or estimated. -/
def c5Resp : PerformanceAnalyticsResponse :=
  { vehicleId := "V1"
    periodStart := 0
    periodEnd := 1440
    totalKwhConsumedAc := 10
    totalKwhDeliveredDc := 9
    efficiencyRatio := 9 / 10
    efficiencyStatus := .good
    avgBatteryTemp := 30
    maxBatteryTemp := 30
    minBatteryTemp := 30
    warning := []
    readingsCount := 1
    meterId := some "M1" }

/-- Second same-day vehicle reading used to witness the pair-of-upserts
property: 6 kWh at minute 720. -/
def c8VehDtoB : VehicleTelemetryDto := ⟨"V1", 70, 6, 30, 720⟩

/-! Helper lemmas shared by the claim theorems. -/

/-- The meter upsert's UPDATE branch never changes the key column. -/
theorem updateMeterRow_meterId (hist : List MeterHist) (dto : MeterTelemetryDto)
    (ts : Time) (vid : Option String) (old : MeterStatusRow) :
    (updateMeterRow hist dto ts vid old).meterId = old.meterId := rfl

/-- The vehicle upsert's UPDATE branch never changes the key column. -/
theorem updateVehicleRow_vehicleId (dto : VehicleTelemetryDto) (ts : Time)
    (mid : Option String) (old : VehicleStatusRow) :
    (updateVehicleRow dto ts mid old).vehicleId = old.vehicleId := rfl

/-- When a status row for the reading's meter exists, the upsert hits the
`ON CONFLICT DO UPDATE` branch on exactly that row. -/
theorem find?_upsertMeterStatusRows (hist : List MeterHist) (dto : MeterTelemetryDto)
    (ts : Time) (vid : Option String) :
    ∀ (rows : List MeterStatusRow) (s : MeterStatusRow),
      rows.find? (fun r => r.meterId == dto.meterId) = some s →
      (upsertMeterStatusRows hist dto ts vid rows).find? (fun r => r.meterId == dto.meterId) =
        some (updateMeterRow hist dto ts vid s) := by
  intro rows
  induction rows with
  | nil => intro s h; simp at h
  | cons r rs ih =>
    intro s h
    cases hb : (r.meterId == dto.meterId) with
    | true =>
      simp only [List.find?, hb] at h
      obtain rfl : r = s := by injection h
      show (if r.meterId == dto.meterId then updateMeterRow hist dto ts vid r :: rs
            else r :: upsertMeterStatusRows hist dto ts vid rs).find?
          (fun r => r.meterId == dto.meterId) = some (updateMeterRow hist dto ts vid r)
      rw [if_pos hb]
      simp only [List.find?, updateMeterRow_meterId, hb]
    | false =>
      simp only [List.find?, hb] at h
      show (if r.meterId == dto.meterId then updateMeterRow hist dto ts vid r :: rs
            else r :: upsertMeterStatusRows hist dto ts vid rs).find?
          (fun r => r.meterId == dto.meterId) = some (updateMeterRow hist dto ts vid s)
      rw [if_neg (by simp [hb])]
      simp only [List.find?, hb]
      exact ih s h

/-- When a status row for the reading's vehicle exists, the upsert hits the
`ON CONFLICT DO UPDATE` branch on exactly that row. -/
theorem find?_upsertVehicleStatusRows (dto : VehicleTelemetryDto) (ts : Time)
    (mid : Option String) :
    ∀ (rows : List VehicleStatusRow) (s : VehicleStatusRow),
      rows.find? (fun r => r.vehicleId == dto.vehicleId) = some s →
      (upsertVehicleStatusRows dto ts mid rows).find? (fun r => r.vehicleId == dto.vehicleId) =
        some (updateVehicleRow dto ts mid s) := by
  intro rows
  induction rows with
  | nil => intro s h; simp at h
  | cons r rs ih =>
    intro s h
    cases hb : (r.vehicleId == dto.vehicleId) with
    | true =>
      simp only [List.find?, hb] at h
      obtain rfl : r = s := by injection h
      show (if r.vehicleId == dto.vehicleId then updateVehicleRow dto ts mid r :: rs
            else r :: upsertVehicleStatusRows dto ts mid rs).find?
          (fun r => r.vehicleId == dto.vehicleId) = some (updateVehicleRow dto ts mid r)
      rw [if_pos hb]
      simp only [List.find?, updateVehicleRow_vehicleId, hb]
    | false =>
      simp only [List.find?, hb] at h
      show (if r.vehicleId == dto.vehicleId then updateVehicleRow dto ts mid r :: rs
            else r :: upsertVehicleStatusRows dto ts mid rs).find?
          (fun r => r.vehicleId == dto.vehicleId) = some (updateVehicleRow dto ts mid s)
      rw [if_neg (by simp [hb])]
      simp only [List.find?, hb]
      exact ih s h

/-! Claim theorems. -/

/-- C1 (code_bug evidence): when a reading crosses a calendar-day boundary,
the upsert ADDS the new reading's value to the prior day's accumulated
`dailyCumulative` instead of resetting to it.  Meter M1 accumulated 10 on
day 0; a day-1 reading of 5 leaves the code's stored daily at 15, not the
5 the claim (and the entity documentation, "resets at midnight") demands.
The vehicle store behaves the same way: 10 on day 0 plus a day-1 reading
of 5 yields 15. -/
theorem meter_day_boundary_adds_prior_daily :
    meterDaily? c1State "M1" = some 15 ∧
    vehicleDaily? c1VehState "V1" = some 15 ∧
    (15 : ℚ) ≠ 5 := by
  norm_num +decide [meterDaily?, vehicleDaily?, c1State, c1VehState, mDtoA, mDtoNextDay,
    vDtoA, vDtoNextDay, ingestMeterTelemetry, ingestVehicleTelemetry, activeVehicleFor,
    activeMeterFor, emptyDb, meterColdAppend, vehicleColdAppend, upsertMeterStatus,
    upsertVehicleStatus, upsertMeterStatusRows, upsertVehicleStatusRows, insertMeterRow,
    insertVehicleRow, updateMeterRow, updateVehicleRow, prevMeterKwh, sortByTimestampDesc,
    insertByTimestampDesc, dateOf, batteryTempWarningThreshold, List.find?, List.filter,
    List.foldr]

/-- C2 (counterexample): a single meter ingestion whose cold-store insert
succeeds and whose hot-store upsert then fails leaves the history row
persisted with no status row at all — exactly the partial state the claim
says is impossible. -/
theorem cold_append_persists_without_hot_upsert :
    (ingestMeterWithFaults false true emptyDb mDtoA).1.meterHistory.length = 1 ∧
    (ingestMeterWithFaults false true emptyDb mDtoA).1.meterStatus = [] ∧
    (ingestMeterWithFaults false true emptyDb mDtoA).2 = false := by
  norm_num +decide [ingestMeterWithFaults, meterColdAppend, activeVehicleFor, emptyDb,
    mDtoA, List.find?]

/-- C2 (amended): single-reading ingestion is two sequential statements with
no transaction.  If the cold insert fails the state is fully unchanged (so a
hot upsert can never persist without its cold append); if the cold insert
succeeds and the hot upsert fails, the appended history row remains visible
while the status table is untouched — partial state in that direction is
possible. -/
theorem single_ingest_failure_ordering :
    ∀ (st : DbState) (dm : MeterTelemetryDto) (dv : VehicleTelemetryDto) (fu : Bool),
      ingestMeterWithFaults true fu st dm = (st, false) ∧
      ingestVehicleWithFaults true fu st dv = (st, false) ∧
      ingestMeterWithFaults false true st dm =
        (meterColdAppend st dm (activeVehicleFor st dm.meterId), false) ∧
      (ingestMeterWithFaults false true st dm).1.meterStatus = st.meterStatus ∧
      ingestVehicleWithFaults false true st dv =
        (vehicleColdAppend st dv (activeMeterFor st dv.vehicleId), false) ∧
      (ingestVehicleWithFaults false true st dv).1.vehicleStatus = st.vehicleStatus := by
  intro st dm dv fu
  exact ⟨rfl, rfl, rfl, rfl, rfl, rfl⟩

/-- C3 (code_bug evidence): in a batch of three readings the middle one
fails per-record validation and is counted as failed without stopping the
third; but when the commit of the wrapping `queryRunner` transaction fails,
both valid readings' cold and hot writes are still visible afterwards —
the rollback undoes nothing because every write of the loop ran outside
that transaction — while the whole batch surfaces as one failure. -/
theorem batch_rollback_leaves_writes_applied :
    (ingestBatchLoop emptyDb [batchOk1, batchBad, batchOk2] ⟨0, 0, []⟩).2.success = 2 ∧
    (ingestBatchLoop emptyDb [batchOk1, batchBad, batchOk2] ⟨0, 0, []⟩).2.failed = 1 ∧
    c3Run.1.meterHistory.length = 2 ∧
    meterDaily? c3Run.1 "M1" = some 16 ∧
    c3Run.2 = .error "storage failure at commit" := by
  norm_num +decide [c3Run, ingestBatch, ingestBatchLoop, ingestPolymorphic, batchOk1,
    batchBad, batchOk2, readingLabel, meterDaily?, ingestMeterTelemetry, activeVehicleFor,
    emptyDb, meterColdAppend, upsertMeterStatus, upsertMeterStatusRows, insertMeterRow,
    updateMeterRow, prevMeterKwh, sortByTimestampDesc, insertByTimestampDesc, dateOf,
    List.find?, List.filter, List.foldr]

/-- C4: from an empty store, ingesting meter M1 with 10 kWh and then 16 kWh
one hour later on the same calendar day yields a status row whose
`dailyKwhConsumedAc` is 16 and exactly two M1 rows in the cold store. -/
theorem same_day_two_readings_daily_and_history :
    meterDaily? c4State "M1" = some 16 ∧
    (c4State.meterHistory.filter (fun h => h.meterId == "M1")).length = 2 := by
  norm_num +decide [meterDaily?, c4State, mDtoA, mDtoB, ingestMeterTelemetry,
    activeVehicleFor, emptyDb, meterColdAppend, upsertMeterStatus, upsertMeterStatusRows,
    insertMeterRow, updateMeterRow, prevMeterKwh, sortByTimestampDesc, insertByTimestampDesc,
    dateOf, List.find?, List.filter, List.foldr]

/-- C7: on the two-vehicle fleet (per-device ratios 0.80 and 0.60, default
thresholds 0.85/0.75) the fleet summary reports `vehiclesWithWarnings = 1`
and `vehiclesCritical = 1`; its fleet-wide ratio is `round4 (11/15)`, the
quotient of the aggregate sums (15 consumed, 11 delivered), which differs
from the mean of the per-device ratios, `round4 (7/10)`. -/
theorem fleet_ratio_from_aggregates_and_band_counts :
    fleetRatios c7State 0 1440 = [4 / 5, 3 / 5] ∧
    getFleetEfficiency c7State 0 1440 =
      { totalVehicles := 2
        avgEfficiencyRatio := round4 (11 / 15)
        vehiclesWithWarnings := 1
        vehiclesCritical := 1
        totalKwhConsumedAc := 15
        totalKwhDeliveredDc := 11
        totalEnergyLoss := 4 } ∧
    round4 (11 / 15) = 7333 / 10000 ∧
    round4 ((4 / 5 + 3 / 5) / 2) ≠ round4 (11 / 15) := by
  have hf1 : ⌊(44003 / 6 : ℚ)⌋ = 7333 := by rw [Int.floor_eq_iff]; norm_num
  have hf2 : ⌊(3001 / 2 : ℚ)⌋ = 1500 := by rw [Int.floor_eq_iff]; norm_num
  have hf3 : ⌊(2201 / 2 : ℚ)⌋ = 1100 := by rw [Int.floor_eq_iff]; norm_num
  have hf4 : ⌊(801 / 2 : ℚ)⌋ = 400 := by rw [Int.floor_eq_iff]; norm_num
  have hf5 : ⌊(14001 / 2 : ℚ)⌋ = 7000 := by rw [Int.floor_eq_iff]; norm_num
  norm_num +decide [fleetRatios, getFleetEfficiency, fleetTotalDc, fleetTotalAc,
    meterRowsIn, meterConsumedByVehicleTag, c7State, round4, round2, jsRound,
    efficiencyWarningThreshold, efficiencyCriticalThreshold, hf1, hf2, hf3, hf4, hf5,
    List.filter, List.dedup, List.sum, List.foldr, List.foldl, List.map]

/-- C8 (counterexample): two concurrent same-day meter ingests (values 10
then 11, prior latest 5, prior daily 5) interleaved as
insert-A, insert-B, upsert-A, upsert-B leave the stored daily cumulative at
6, strictly below both 10 (ingest A alone) and 11 (ingest B alone): the
upsert's same-day delta subquery reads the history table, which already
holds the other concurrent reading. -/
theorem concurrent_meter_ingest_lost_update :
    meterDaily? c8Interleaved "M1" = some 6 ∧
    meterDaily? (ingestMeterTelemetry c8Base c8DtoA) "M1" = some 10 ∧
    meterDaily? (ingestMeterTelemetry c8Base c8DtoB) "M1" = some 11 ∧
    (6 : ℚ) < 10 ∧ (6 : ℚ) < 11 := by
  norm_num +decide [meterDaily?, c8Interleaved, c8Base, c8DtoA, c8DtoB,
    ingestMeterTelemetry, activeVehicleFor, emptyDb, meterColdAppend, upsertMeterStatus,
    upsertMeterStatusRows, insertMeterRow, updateMeterRow, prevMeterKwh,
    sortByTimestampDesc, insertByTimestampDesc, dateOf, List.find?, List.filter,
    List.foldr]

/-- C8 (amended): the vehicle upsert's UPDATE branch reads only the status
row itself, so for an existing status row and any two upserts applied in
sequence (the order the atomic statements serialize in), the resulting
daily cumulative is at least what either upsert alone would have produced,
provided the readings and the stored latest value are nonnegative. -/
theorem vehicle_upsert_pair_no_lost_update (s : VehicleStatusRow)
    (a b : VehicleTelemetryDto) (ta tb : Time) (ma mb : Option String)
    (ha : 0 ≤ a.kwhDeliveredDc) (hb : 0 ≤ b.kwhDeliveredDc)
    (hs : 0 ≤ s.kwhDeliveredDc) :
    (updateVehicleRow a ta ma s).dailyKwhDeliveredDc ≤
      (updateVehicleRow b tb mb (updateVehicleRow a ta ma s)).dailyKwhDeliveredDc ∧
    (updateVehicleRow b tb mb s).dailyKwhDeliveredDc ≤
      (updateVehicleRow b tb mb (updateVehicleRow a ta ma s)).dailyKwhDeliveredDc := by
  simp only [updateVehicleRow]
  constructor <;>
    · split_ifs <;>
        first
        | (exfalso; omega)
        | linarith
        | (simp only [max_def]; split_ifs <;> linarith)

/-- C8 (amended, witness): instantiated at the stored row with latest 5 and
daily 5, and same-day readings of 4 and 6 kWh. -/
theorem vehicle_upsert_pair_no_lost_update_witness :
    (updateVehicleRow c9Dto 660 none c9Row).dailyKwhDeliveredDc ≤
      (updateVehicleRow c8VehDtoB 720 none (updateVehicleRow c9Dto 660 none c9Row)).dailyKwhDeliveredDc ∧
    (updateVehicleRow c8VehDtoB 720 none c9Row).dailyKwhDeliveredDc ≤
      (updateVehicleRow c8VehDtoB 720 none (updateVehicleRow c9Dto 660 none c9Row)).dailyKwhDeliveredDc :=
  vehicle_upsert_pair_no_lost_update c9Row c9Dto c8VehDtoB 660 720 none none
    (by norm_num [c9Dto]) (by norm_num [c8VehDtoB]) (by norm_num [c9Row])

/-- C5 (counterexample): when the window has positive delivered energy and
zero consumed energy, `getPerformance` substitutes `delivered / 0.9` and
reports ratio 0.9 without faulting — but its response is identical, field
for field, to the response for a store whose measured consumed sum is 10
with a measured ratio of exactly 0.9.  No field of the result flags the
ratio as estimated rather than measured. -/
theorem estimated_ratio_indistinguishable_from_measured :
    consumedSumOf c5EstState "V1" (some "M1") (periodStartOf 1440 24) 1440 = 0 ∧
    consumedSumOf c5MeasState "V1" (some "M1") (periodStartOf 1440 24) 1440 = 10 ∧
    getPerformance c5EstState "V1" 1440 24 (some "M1") = .ok c5Resp ∧
    getPerformance c5MeasState "V1" 1440 24 (some "M1") = .ok c5Resp := by
  have hf1 : ⌊(200001 / 2 : ℚ)⌋ = 100000 := by rw [Int.floor_eq_iff]; norm_num
  have hf2 : ⌊(180001 / 2 : ℚ)⌋ = 90000 := by rw [Int.floor_eq_iff]; norm_num
  have hf3 : ⌊(18001 / 2 : ℚ)⌋ = 9000 := by rw [Int.floor_eq_iff]; norm_num
  have hf4 : ⌊(6001 / 2 : ℚ)⌋ = 3000 := by rw [Int.floor_eq_iff]; norm_num
  norm_num +decide [getPerformance, periodStartOf, vehicleRowsIn, meterRowsIn,
    meterConsumedByMeterId, meterConsumedByVehicleTag, resolvedMeterId, consumedSumOf,
    qMax0, qMin0, effStatusOf, efficiencyWarningThreshold, efficiencyCriticalThreshold,
    round4, round2, jsRound, c5EstState, c5MeasState, c5VehRow, c5MetRow, c5Resp,
    hf1, hf2, hf3, hf4, List.filter, List.sum, List.foldr, List.foldl, List.map,
    List.find?]

/-- C5 (amended): whenever the vehicle window is nonempty with a positive
delivered sum and the consumed sum the service computes is zero, the call
returns a result (no division-by-zero fault) whose consumed total is the
estimate `delivered / 0.9` and whose ratio is the fixed constant 0.9,
classified `good`. -/
theorem zero_consumed_positive_delivered_estimated_ratio (st : DbState) (vid : String)
    (now : Time) (hours : Nat) (marg : Option String)
    (hv : vehicleRowsIn st vid (periodStartOf now hours) now ≠ [])
    (hdc : 0 < ((vehicleRowsIn st vid (periodStartOf now hours) now).map
      (·.kwhDeliveredDc)).sum)
    (hac : consumedSumOf st vid marg (periodStartOf now hours) now = 0) :
    ∃ r, getPerformance st vid now hours marg = .ok r ∧
      r.efficiencyRatio = round4 (9 / 10) ∧
      r.efficiencyStatus = .good ∧
      r.totalKwhConsumedAc =
        round4 (((vehicleRowsIn st vid (periodStartOf now hours) now).map
          (·.kwhDeliveredDc)).sum / (9 / 10)) := by
  have hlen : ¬ (vehicleRowsIn st vid (periodStartOf now hours) now).length = 0 := by
    simpa [List.length_eq_zero] using hv
  have hnot : ¬ consumedSumOf st vid marg (periodStartOf now hours) now > 0 := by
    rw [hac]; norm_num
  simp only [getPerformance]
  rw [if_neg hlen]
  refine ⟨_, rfl, ?_, ?_, ?_⟩
  · simp only [if_neg hnot, if_pos hdc]
  · simp only [if_neg hnot, if_pos hdc]
    norm_num [effStatusOf, efficiencyWarningThreshold]
  · simp only [if_neg hnot, if_pos hdc]

/-- C5 (amended, witness): instantiated at the store with one vehicle row
delivering 9 kWh and no meter rows. -/
theorem zero_consumed_positive_delivered_estimated_ratio_witness :
    ∃ r, getPerformance c5EstState "V1" 1440 24 (some "M1") = .ok r ∧
      r.efficiencyRatio = round4 (9 / 10) ∧
      r.efficiencyStatus = .good ∧
      r.totalKwhConsumedAc =
        round4 (((vehicleRowsIn c5EstState "V1" (periodStartOf 1440 24) 1440).map
          (·.kwhDeliveredDc)).sum / (9 / 10)) :=
  zero_consumed_positive_delivered_estimated_ratio c5EstState "V1" 1440 24 (some "M1")
    (by decide)
    (by norm_num [vehicleRowsIn, periodStartOf, c5EstState, c5VehRow, List.filter])
    (by norm_num [consumedSumOf, resolvedMeterId, meterConsumedByMeterId, meterRowsIn,
      periodStartOf, c5EstState, List.filter])

/-- C6: when a vehicle has zero history rows in the requested window, the
device summary fails with NotFound — regardless of any meter-side rows in
the window — and never returns a zeroed result. -/
theorem empty_vehicle_window_not_found (st : DbState) (vid : String) (now : Time)
    (hours : Nat) (marg : Option String)
    (h : vehicleRowsIn st vid (periodStartOf now hours) now = []) :
    getPerformance st vid now hours marg =
      .error ("No telemetry data found for vehicle " ++ vid) := by
  simp [getPerformance, h]

/-- C6 (witness): the store `c6State` has a meter row inside `[0, 1440]`
while V1's only reading lies outside it. -/
theorem empty_vehicle_window_not_found_witness :
    getPerformance c6State "V1" 1440 24 none =
      .error ("No telemetry data found for vehicle " ++ "V1") :=
  empty_vehicle_window_not_found c6State "V1" 1440 24 none (by decide)

/-- C9: a same-day vehicle upsert on an existing status row never decreases
`dailyKwhDeliveredDc`: the increment is `GREATEST(0, new - stored latest)`,
clamped at zero, so even a reading below the stored latest leaves the daily
cumulative unchanged rather than lowering it. -/
theorem same_day_vehicle_upsert_never_decreases_daily (st : DbState)
    (dto : VehicleTelemetryDto) (mid : Option String) (s : VehicleStatusRow)
    (hfind : st.vehicleStatus.find? (fun r => r.vehicleId == dto.vehicleId) = some s)
    (hday : dateOf dto.timestamp = dateOf s.lastReadingAt) :
    ∃ s', (upsertVehicleStatus st dto dto.timestamp mid).vehicleStatus.find?
        (fun r => r.vehicleId == dto.vehicleId) = some s' ∧
      s.dailyKwhDeliveredDc ≤ s'.dailyKwhDeliveredDc := by
  refine ⟨updateVehicleRow dto dto.timestamp mid s, ?_, ?_⟩
  · exact find?_upsertVehicleStatusRows dto dto.timestamp mid st.vehicleStatus s hfind
  · simp only [updateVehicleRow]
    rw [if_neg (by omega)]
    have hmax := le_max_left (0 : ℚ) (dto.kwhDeliveredDc - s.kwhDeliveredDc)
    linarith

/-- C9 (witness): instantiated at the stored row with latest 5, daily 5, and
a same-day reading of 4 kWh (lower than the stored latest). -/
theorem same_day_vehicle_upsert_never_decreases_daily_witness :
    ∃ s', (upsertVehicleStatus c9State c9Dto c9Dto.timestamp none).vehicleStatus.find?
        (fun r => r.vehicleId == c9Dto.vehicleId) = some s' ∧
      c9Row.dailyKwhDeliveredDc ≤ s'.dailyKwhDeliveredDc :=
  same_day_vehicle_upsert_never_decreases_daily c9State c9Dto none c9Row rfl (by decide)

/-- C10: once a status row's correlated peer field is set, ingestion never
clears it (the upsert COALESCEs the newly resolved peer over the existing
one, keeping the old value when no active mapping resolves), and
deactivating a mapping changes only the mapping table, leaving both status
tables untouched. -/
theorem peer_fields_never_cleared :
    (∀ (st : DbState) (dto : MeterTelemetryDto) (s : MeterStatusRow),
      st.meterStatus.find? (fun r => r.meterId == dto.meterId) = some s →
      s.vehicleId ≠ none →
      ∃ s', (ingestMeterTelemetry st dto).meterStatus.find?
          (fun r => r.meterId == dto.meterId) = some s' ∧ s'.vehicleId ≠ none) ∧
    (∀ (st : DbState) (dto : VehicleTelemetryDto) (s : VehicleStatusRow),
      st.vehicleStatus.find? (fun r => r.vehicleId == dto.vehicleId) = some s →
      s.meterId ≠ none →
      ∃ s', (ingestVehicleTelemetry st dto).vehicleStatus.find?
          (fun r => r.vehicleId == dto.vehicleId) = some s' ∧ s'.meterId ≠ none) ∧
    (∀ (st : DbState) (m v : String),
      (deactivateMapping st m v).meterStatus = st.meterStatus ∧
      (deactivateMapping st m v).vehicleStatus = st.vehicleStatus) := by
  refine ⟨?_, ?_, fun st m v => ⟨rfl, rfl⟩⟩
  · intro st dto s hfind hpeer
    refine ⟨updateMeterRow (meterColdAppend st dto (activeVehicleFor st dto.meterId)).meterHistory
      dto dto.timestamp (activeVehicleFor st dto.meterId) s, ?_, ?_⟩
    · exact find?_upsertMeterStatusRows _ dto dto.timestamp _ st.meterStatus s hfind
    · simp only [updateMeterRow]
      cases hvid : activeVehicleFor st dto.meterId with
      | none => simpa using hpeer
      | some v => simp
  · intro st dto s hfind hpeer
    refine ⟨updateVehicleRow dto dto.timestamp (activeMeterFor st dto.vehicleId) s, ?_, ?_⟩
    · exact find?_upsertVehicleStatusRows dto dto.timestamp _ st.vehicleStatus s hfind
    · simp only [updateVehicleRow]
      cases hmid : activeMeterFor st dto.vehicleId with
      | none => simpa using hpeer
      | some m => simp

/-- C10 (witness): ingesting a new M1 reading into the store whose M1
status row already carries peer V1, with no active mapping, keeps the peer
set. -/
theorem peer_fields_never_cleared_witness :
    ∃ s', (ingestMeterTelemetry c10State mDtoB).meterStatus.find?
        (fun r => r.meterId == mDtoB.meterId) = some s' ∧ s'.vehicleId ≠ none :=
  peer_fields_never_cleared.1 c10State mDtoB c10MeterRow rfl (by decide)

end IngestionEngine
